import Mathlib

/-!
Verification of the vnode-operations layer of the fuse4x kernel extension
(`fuse_vnops.c`, `fuse_file.h`).  Each C entry point that the claims touch is
shallowly embedded as an executable Lean function over explicit inputs
(session flags, vnode kind, daemon replies); machine integers that matter are
modelled as `Nat`/`Int`.  Theorems below settle the frozen claims C1..C10.
-/

namespace Fuse4x

/-! ## Errno constants (XNU values, `sys/errno.h`) -/

def EPERM : Int := 1
def ENOENT : Int := 2
def EIO : Int := 5
def ENXIO : Int := 6
def E2BIG : Int := 7
def EBADF : Int := 9
def EACCES : Int := 13
def EBUSY : Int := 16
def EEXIST : Int := 17
def EXDEV : Int := 18
def ENOTDIR : Int := 20
def EISDIR : Int := 21
def EINVAL : Int := 22
def EROFS : Int := 30
def EMLINK : Int := 31
def ERANGE : Int := 34
def EAGAIN : Int := 35
def ENOTSUP : Int := 45
def ENOTCONN : Int := 57
def ENAMETOOLONG : Int := 63
def ENOSYS : Int := 78

/-- `FUSE_MAXNAMLEN` from `fuse_param.h`. -/
def FUSE_MAXNAMLEN : Nat := 255

/-- `S_IRWXU` (0700) from `sys/stat.h`. -/
def S_IRWXU : Nat := 448

/-! ## File-handle classes (`fuse_file.h`) -/

/-- `fufh_type_t`: the three access classes indexing a node's handle slots. -/
inductive FufhType where
  | rdonly
  | wronly
  | rdwr
deriving DecidableEq, Repr

/-- `nameiop` values relevant to `fuse_vnop_lookup` (`sys/namei.h`). -/
inductive NameiOp where
  | lookup
  | create
  | delete
  | rename
deriving DecidableEq, Repr

/-! ## C9: `fuse_vnop_lookup` preamble (fuse_vnops.c lines 1145..1163)

The preamble of `fuse_vnop_lookup` performs a series of early-return checks
before any request is built or dispatched to the daemon.  `LookupPre.proceed`
means control reached past the name-length check (towards the cache lookup /
`calldaemon` logic); every `LookupPre.ret` happens with no request issued. -/

inductive LookupPre where
  | ret (e : Int)
  | proceed
deriving DecidableEq, Repr

/-- Inputs of the `fuse_vnop_lookup` preamble. -/
structure LookupArgs where
  /-- `fuse_isdeadfs(dvp)` -/
  dead : Bool
  /-- `fuse_skip_apple_double_mp(mp, cnp->cn_nameptr, cnp->cn_namelen)` -/
  appleDouble : Bool
  /-- `vnode_isdir(dvp)` -/
  dvpIsDir : Bool
  /-- `flags & ISLASTCN` -/
  islastcn : Bool
  /-- `vfs_isrdonly(mp)` -/
  rdonlyMount : Bool
  /-- `cnp->cn_nameiop` -/
  nameiop : NameiOp
  /-- `cnp->cn_namelen` -/
  namelen : Nat

/-- The early-return chain of `fuse_vnop_lookup` (lines 1145..1163), ending at
the `cn_namelen > FUSE_MAXNAMLEN` check. -/
def fuse_vnop_lookup_pre (a : LookupArgs) : LookupPre :=
  if a.dead then .ret ENXIO
  else if a.appleDouble then .ret ENOENT
  else if !a.dvpIsDir then .ret ENOTDIR
  else if a.islastcn && a.rdonlyMount && !(a.nameiop = NameiOp.lookup) then .ret EROFS
  else if a.namelen > FUSE_MAXNAMLEN then .ret ENAMETOOLONG
  else .proceed

/-! ## C10: `fuse_vnop_rmdir` (fuse_vnops.c lines 2590..2622) -/

/-- Observable outcome of `fuse_vnop_rmdir`: the returned errno, whether the
name cache was purged for the target (`fuse_vncache_purge(vp)`), whether a
`FUSE_RMDIR` request was dispatched (`fuse_internal_remove`), and whether the
parent's attributes were invalidated. -/
structure RmdirOut where
  ret : Int
  purged : Bool
  dispatched : Bool
  invalidatedParent : Bool
deriving DecidableEq, Repr

/-- Inputs of `fuse_vnop_rmdir`. -/
structure RmdirArgs where
  /-- `fuse_isdeadfs(vp)` -/
  dead : Bool
  /-- `CHECK_BLANKET_DENIAL(vp, context, ENOENT)` fires -/
  blanketDenial : Bool
  /-- `VTOFUD(vp) == VTOFUD(dvp)`: the target's node data is the parent's -/
  sameNodeData : Bool
  /-- errno returned by `fuse_internal_remove(dvp, vp, cnp, FUSE_RMDIR, ctx)`;
  the internal helper is not under src/, so its result is a free input here -/
  removeErr : Int

/-- `fuse_vnop_rmdir`, transcribed from lines 2590..2622. -/
def fuse_vnop_rmdir (a : RmdirArgs) : RmdirOut :=
  if a.dead then
    ⟨ ENXIO, false, false, false⟩
  else if a.blanketDenial then
    ⟨ENOENT, false, false, false⟩
  else if a.sameNodeData then
    ⟨EINVAL, false, false, false⟩
  else
    { ret := a.removeErr
      purged := true
      dispatched := true
      invalidatedParent := a.removeErr = 0 }

/-! ## C7: `fuse_vnop_ioctl` (fuse_vnops.c lines 3264..3328) -/

/-- `IOC_IN` from `sys/ioccom.h` (0x80000000). -/
def IOC_IN : Nat := 2147483648

/-- `IOC_OUT` from `sys/ioccom.h` (0x40000000). -/
def IOC_OUT : Nat := 1073741824

/-- `IOCPARM_LEN(x) = ((x >> 16) & IOCPARM_MASK)` with `IOCPARM_MASK = 0x1fff`. -/
def IOCPARM_LEN (cmd : Nat) : Nat := (cmd >>> 16) &&& 8191

/-- Inputs of `fuse_vnop_ioctl`. -/
structure IoctlArgs where
  /-- `fuse_isdeadfs(vp)` -/
  dead : Bool
  /-- `CHECK_BLANKET_DENIAL(vp, context, EPERM)` fires -/
  blanketDenial : Bool
  /-- `fuse_implemented(data, FSESS_NOIMPLBIT(IOCTL))` -/
  capIoctl : Bool
  /-- `FUFH_IS_VALID` on the slot selected from `ap->a_fflag` -/
  fufhValid : Bool
  /-- `ap->a_command` (`u_long`) -/
  command : Nat
  /-- errno returned by `fuse_dispatcher_wait_answer` -/
  waitErr : Int

/-- Observable outcome of `fuse_vnop_ioctl`: return value, whether a
`FUSE_IOCTL` request was dispatched, the `in_size` set on the request together
with the input copy (`none` when the `IOC_IN` branch is not taken), the
`out_size` set (`none` when the `IOC_OUT` branch is not taken), whether the
output buffer was copied back, and the capability bit afterwards. -/
structure IoctlOut where
  ret : Int
  sentRequest : Bool
  inSizeCopied : Option Nat
  outSizeSet : Option Nat
  copiedOut : Bool
  capIoctlAfter : Bool
deriving DecidableEq, Repr

/-- `fuse_vnop_ioctl`, transcribed from lines 3264..3328.  The direction
tests are kept exactly as written in the source: `if (ap->a_command | IOC_IN)`
and `if (ap->a_command | IOC_OUT)`, i.e. bitwise OR, nonzero test. -/
def fuse_vnop_ioctl (a : IoctlArgs) : IoctlOut :=
  if a.dead then ⟨ ENXIO, false, none, none, false, a.capIoctl⟩
  else if a.blanketDenial then ⟨EPERM, false, none, none, false, a.capIoctl⟩
  else if !a.capIoctl then ⟨ENOTSUP, false, none, none, false, a.capIoctl⟩
  else if !a.fufhValid then ⟨ EIO, false, none, none, false, a.capIoctl⟩
  else
    let iodataSize := IOCPARM_LEN a.command
    let inSize : Option Nat :=
      if a.command ||| IOC_IN ≠ 0 then some iodataSize else none
    let outSize : Option Nat :=
      if a.command ||| IOC_OUT ≠ 0 then some iodataSize else none
    if a.waitErr = 0 then
      { ret := 0, sentRequest := true, inSizeCopied := inSize,
        outSizeSet := outSize,
        copiedOut := a.command ||| IOC_OUT ≠ 0, capIoctlAfter := true }
    else if a.waitErr = ENOSYS then
      { ret := 0, sentRequest := true, inSizeCopied := inSize,
        outSizeSet := outSize, copiedOut := false, capIoctlAfter := false }
    else
      { ret := a.waitErr, sentRequest := true, inSizeCopied := inSize,
        outSizeSet := outSize, copiedOut := false, capIoctlAfter := true }

/-! ## C8: `fuse_vnop_getattr` (fuse_vnops.c lines 678..817) -/

/-- Host vnode types (`enum vtype`). -/
inductive VType where
  | non
  | reg
  | dir
  | blk
  | chr
  | lnk
  | sock
  | fifo
  | bad
deriving DecidableEq, Repr

/-- `S_IFMT` (0170000). -/
def S_IFMT : Nat := 61440

/-- `IFTOVT`: vnode type from the file-type bits of a protocol mode. -/
def IFTOVT (mode : Nat) : VType :=
  let m := mode &&& S_IFMT
  if m = 4096 then VType.fifo
  else if m = 8192 then VType.chr
  else if m = 16384 then VType.dir
  else if m = 24576 then VType.blk
  else if m = 32768 then VType.reg
  else if m = 40960 then VType.lnk
  else if m = 49152 then VType.sock
  else VType.non

/-- Inputs of `fuse_vnop_getattr`. -/
structure GetattrArgs where
  /-- `fuse_isdeadfs(vp)` -/
  dead : Bool
  /-- `vnode_isvroot(vp)` -/
  isRoot : Bool
  /-- `fuse_vfs_context_issuser(context)` -/
  issuser : Bool
  /-- `CHECK_BLANKET_DENIAL(vp, context, ENOENT)` fires -/
  blanketDenial : Bool
  /-- attr cache fresh: `now <= VTOFUD(vp)->attr_valid` -/
  cacheFresh : Bool
  /-- `data->inited` -/
  inited : Bool
  /-- result of `fuse_dispatcher_wait_answer` on `FUSE_GETATTR`: errno, or the
  reply's `attr.mode` on success -/
  dispatchReply : Except Int Nat
  /-- `vnode_vtype(vp)` -/
  vnodeType : VType
  /-- `kauth_cred_getuid(data->daemoncred)` -/
  daemonUid : Nat
  /-- `kauth_cred_getgid(data->daemoncred)` -/
  daemonGid : Nat

/-- Outcome of `fuse_vnop_getattr`.  `err e purged killed` is a nonzero errno
return (with: name cache purged for the vnode, session marked dead by
`fuse_data_kill`); `cached` returns 0 serving the attribute cache; `served m`
returns 0 with the daemon reply of mode `m` loaded; `fake t uid gid m` is the
fabricated attribute reply of the `fake:` label (lines 809..816). -/
inductive GetattrOut where
  | err (e : Int) (purgedCache : Bool) (killedData : Bool)
  | cached
  | served (mode : Nat)
  | fake (t : VType) (uid : Nat) (gid : Nat) (mode : Nat)
deriving DecidableEq, Repr

/-- The `fake:` label of `fuse_vnop_getattr`: type from the vnode, uid/gid
from the daemon credentials, mode `S_IRWXU`. -/
def getattrFake (a : GetattrArgs) : GetattrOut :=
  GetattrOut.fake a.vnodeType a.daemonUid a.daemonGid S_IRWXU

/-- `fuse_vnop_getattr`, transcribed from lines 678..817. -/
def fuse_vnop_getattr (a : GetattrArgs) : GetattrOut :=
  if a.dead then
    if a.isRoot then getattrFake a else .err ENXIO false false
  else if (!a.isRoot || !a.issuser) && a.blanketDenial then
    .err ENOENT false false
  else if a.cacheFresh then
    .cached
  else if !a.inited then
    if !a.isRoot then .err ENOTCONN false true else getattrFake a
  else
    match a.dispatchReply with
    | .error e =>
      if e = ENOTCONN && a.isRoot then getattrFake a
      else .err e (e = ENOENT) false
    | .ok mode =>
      if mode &&& S_IFMT = 0 then .err EIO false false
      else if a.vnodeType ≠ IFTOVT mode then
        if a.vnodeType = VType.non && IFTOVT mode ≠ VType.non then
          .served mode
        else
          .err EIO true false
      else
        .served mode

/-! ## C1: `fuse_vnop_read`, direct-I/O loop (fuse_vnops.c lines 2016..2138) -/

/-- One `FUSE_READ` round trip of the direct-I/O loop: the `fri->size` put in
the request, the reply payload size (`fdi.iosize` after `wait_answer`) and the
bytes moved to the caller (`uiomove(..., min(fri->size, fdi.iosize), uio)`). -/
structure ReadStep where
  reqSize : Nat
  replySize : Nat
  copied : Nat
deriving DecidableEq, Repr

/-- The `while (uio_resid(uio) > 0)` loop of the direct-I/O read path
(lines 2099..2122).  `replies k` is the daemon's answer to the `k`-th request:
an errno from `fuse_dispatcher_wait_answer` (which the loop returns
immediately) or the reply payload size.  Each request carries
`fri->size = min(uio_resid(uio), data->iosize)`; after a successful reply,
`min(fri->size, fdi.iosize)` bytes are moved and the loop breaks when
`fdi.iosize < fri->size`.  `fuel` bounds the iteration count; `fuel = resid`
suffices whenever `iosize > 0` because each full round trip moves at least one
byte. -/
def readDirectLoop (iosize : Nat) (replies : Nat → Except Int Nat) (i : Nat)
    (resid : Nat) (fuel : Nat) : List ReadStep × Int :=
  match fuel with
  | 0 => ([], 0)
  | fuel + 1 =>
    if resid = 0 then ([], 0)
    else
      let req := min resid iosize
      match replies i with
      | .error e => ([], e)
      | .ok rep =>
        let cop := min req rep
        let step : ReadStep := ⟨req, rep, cop⟩
        if rep < req then ([step], 0)
        else
          let p := readDirectLoop iosize replies (i + 1) (resid - cop) fuel
          (step :: p.1, p.2)

/-- Total bytes delivered to the caller by a trace of read steps. -/
def sumCopied (l : List ReadStep) : Nat :=
  (l.map ReadStep.copied).sum

/-- Handle-slot selection of the direct-I/O read path (lines 2072..2095):
the `RDONLY` slot if valid, else the `RDWR` slot, else none (`EIO`). -/
def pickReadSlot (rdonlyValid rdwrValid : Bool) : Option FufhType :=
  if rdonlyValid then some FufhType.rdonly
  else if rdwrValid then some FufhType.rdwr
  else none

/-- Outcome of `fuse_vnop_read`: plain return, direct-I/O loop trace with the
slot class used and the final errno, or delegation to `cluster_read`. -/
inductive ReadOut where
  | ret (e : Int)
  | direct (slot : FufhType) (steps : List ReadStep) (e : Int)
  | cluster
deriving DecidableEq, Repr

/-- Inputs of `fuse_vnop_read`. -/
structure ReadArgs where
  /-- `fuse_isdeadfs(vp)` -/
  dead : Bool
  /-- `vnode_ischr(vp)` -/
  ischr : Bool
  /-- `vnode_isreg(vp)` -/
  isreg : Bool
  /-- `vnode_isdir(vp)` -/
  isdir : Bool
  /-- `uio_resid(uio)` -/
  resid : Int
  /-- `uio_offset(uio)` -/
  offset : Int
  /-- `fuse_isdirectio(vp)` -/
  isdirectio : Bool
  /-- `FUFH_IS_VALID(&fvdat->fufh[FUFH_RDONLY])` -/
  rdonlyValid : Bool
  /-- `FUFH_IS_VALID(&fvdat->fufh[FUFH_RDWR])` -/
  rdwrValid : Bool
  /-- `data->iosize` -/
  iosize : Nat
  /-- daemon replies, per request index -/
  replies : Nat → Except Int Nat

/-- `fuse_vnop_read`, transcribed from lines 2016..2138. -/
def fuse_vnop_read (a : ReadArgs) : ReadOut :=
  if a.dead then
    if a.ischr then .ret 0 else .ret ENXIO
  else if !a.isreg then
    if a.isdir then .ret EISDIR else .ret EPERM
  else if a.resid = 0 then .ret 0
  else if a.offset < 0 then .ret EINVAL
  else if a.isdirectio then
    match pickReadSlot a.rdonlyValid a.rdwrValid with
    | none => .ret EIO
    | some t =>
      let p := readDirectLoop a.iosize a.replies 0 a.resid.toNat a.resid.toNat
      .direct t p.1 p.2
  else .cluster

/-- Checks that a read trace starting from `resid` outstanding bytes issues
each request with `size = min(remaining resid, iosize)` and copies
`min(request, reply)` bytes at each step. -/
def reqSizesOK (iosize : Nat) : Nat → List ReadStep → Bool
  | _, [] => true
  | resid, s :: rest =>
    decide (s.reqSize = min resid iosize) &&
      decide (s.copied = min s.reqSize s.replySize) &&
      reqSizesOK iosize (resid - s.copied) rest

/-- Checks that only the final step of a read trace may be a short reply:
every earlier step's reply covered the full requested size. -/
def noEarlyShort : List ReadStep → Bool
  | [] => true
  | [_] => true
  | s :: rest => decide (s.reqSize ≤ s.replySize) && noEarlyShort rest

/-- Daemon oracle for the C1 full-delivery example: replies carry exactly the
requested sizes `4096, 4096, 808`. -/
def readRepliesFull : Nat → Except Int Nat :=
  fun i => .ok (if i = 2 then 808 else 4096)

/-- Daemon oracle for the C1 short-reply example: the second request gets a
500-byte reply. -/
def readRepliesShort : Nat → Except Int Nat :=
  fun i => .ok (if i = 1 then 500 else 4096)

/-- C1 example arguments: direct-I/O read of 9000 bytes at offset 0 with
session `iosize = 4096` and a valid `RDONLY` slot. -/
def readArgsEx (replies : Nat → Except Int Nat) : ReadArgs :=
  { dead := false, ischr := false, isreg := true, isdir := false
    resid := 9000, offset := 0, isdirectio := true
    rdonlyValid := true, rdwrValid := false, iosize := 4096
    replies := replies }

/-! ## C2: `fuse_vnop_create` (fuse_vnops.c lines 332..474) -/

/-- The fields of the daemon's `fuse_entry_out` reply that `fuse_vnop_create`
reads (for `FUSE_CREATE`, a `fuse_open_out` carrying `fh` follows it). -/
structure FuseEntryOut where
  nodeid : Nat
  mode : Nat
  fh : Nat
deriving DecidableEq, Repr

/-- Modelled from the spec: `fuse_internal_checkentry` lives in
`fuse_internal.c`, which is not under src/.  Per §4.3 and §7 of the spec the
entry's mode must carry the expected file type, a violation being a protocol
sanity error `EIO` ("VBLK/VCHR not allowed" at the call site, which passes
`VREG`). -/
def fuse_internal_checkentry (feo : FuseEntryOut) (expected : VType) : Option Int :=
  if IFTOVT feo.mode = expected then none else some EIO

/-- Requests `fuse_vnop_create` can issue. -/
inductive CreateMsg where
  | createReq
  | mknodReq
  | releaseReq (fh : Nat)
  | forgetReq (nodeid : Nat)
deriving DecidableEq, Repr

/-- Inputs of `fuse_vnop_create`. -/
structure CreateArgs where
  /-- `fuse_isdeadfs(dvp)` -/
  dead : Bool
  /-- `CHECK_BLANKET_DENIAL(dvp, context, EPERM)` fires -/
  blanketDenial : Bool
  /-- `fuse_skip_apple_double_mp(...)` -/
  appleDouble : Bool
  /-- `fuse_implemented(data, FSESS_NOIMPLBIT(CREATE))` -/
  capCreate : Bool
  /-- `vap->va_type == VREG` -/
  vaTypeIsReg : Bool
  /-- `fuse_dispatcher_wait_answer` on `FUSE_CREATE`: errno or entry reply -/
  createReply : Except Int FuseEntryOut
  /-- `fuse_dispatcher_wait_answer` on `FUSE_MKNOD`: errno or entry reply -/
  mknodReply : Except Int FuseEntryOut
  /-- `FSNodeGetOrCreateFileVNodeByID` result (not under src/): `none` on
  success, `some errno` on vnode-instantiation failure -/
  instantiateErr : Option Int

/-- Observable outcome of `fuse_vnop_create`: return value, requests issued
in order, `CREATE` capability bit afterwards, whether
`cache_purge_negatives(dvp)` ran, and whether the reply handle was stashed in
the `RDWR` slot with `open_count = 1`. -/
structure CreateOut where
  ret : Int
  msgs : List CreateMsg
  capCreateAfter : Bool
  purgedNegatives : Bool
  rdwrInstalled : Bool
deriving DecidableEq, Repr

/-- The `bringup:` section of `fuse_vnop_create` (lines 418..470):
validate the entry, instantiate the vnode — compensating with `FUSE_FORGET`
on the `MKNOD` path or `FUSE_RELEASE` on the `CREATE` path when instantiation
fails — then stash the `CREATE` handle and purge negative name-cache entries
on success. -/
def fuse_vnop_create_bringup (a : CreateArgs) (goneGoodOld : Bool)
    (msgs : List CreateMsg) (capAfter : Bool) (feo : FuseEntryOut) : CreateOut :=
  match fuse_internal_checkentry feo VType.reg with
  | some e => ⟨e, msgs, capAfter, false, false⟩
  | none =>
    match a.instantiateErr with
    | some e =>
      if goneGoodOld then
        ⟨e, msgs ++ [CreateMsg.forgetReq feo.nodeid], capAfter, false, false⟩
      else
        ⟨e, msgs ++ [CreateMsg.releaseReq feo.fh], capAfter, false, false⟩
    | none =>
      ⟨0, msgs, capAfter, true, !goneGoodOld⟩

/-- The `good_old:` section of `fuse_vnop_create` (lines 406..416): issue
`FUSE_MKNOD` and continue at `bringup:` with `gone_good_old` set. -/
def fuse_vnop_create_goodOld (a : CreateArgs) (msgs : List CreateMsg)
    (capAfter : Bool) : CreateOut :=
  match a.mknodReply with
  | .error e => ⟨e, msgs ++ [CreateMsg.mknodReq], capAfter, false, false⟩
  | .ok feo => fuse_vnop_create_bringup a true (msgs ++ [CreateMsg.mknodReq]) capAfter feo

/-- `fuse_vnop_create`, transcribed from lines 332..474. -/
def fuse_vnop_create (a : CreateArgs) : CreateOut :=
  if a.dead then ⟨ ENXIO, [], a.capCreate, false, false⟩
  else if a.blanketDenial then ⟨EPERM, [], a.capCreate, false, false⟩
  else if a.appleDouble then ⟨EPERM, [], a.capCreate, false, false⟩
  else if !a.capCreate || !a.vaTypeIsReg then
    fuse_vnop_create_goodOld a [] a.capCreate
  else
    match a.createReply with
    | .error e =>
      if e = ENOSYS then fuse_vnop_create_goodOld a [CreateMsg.createReq] false
      else ⟨e, [CreateMsg.createReq], a.capCreate, false, false⟩
    | .ok feo => fuse_vnop_create_bringup a false [CreateMsg.createReq] a.capCreate feo

/-! ## C5: open/close reference counting on one handle slot
(`fuse_vnop_open` lines 1715..1757, `fuse_vnop_close` lines 223..320,
`fuse_file.h` count macros; `fuse_filehandle_get`/`put` modelled from the
spec).  A slot is represented by its `open_count` (`FUFH_IS_VALID(f)` iff
`open_count > 0`, fuse_file.h line 32). -/

/-- Daemon requests relevant to the handle lifecycle. -/
inductive FhMsg where
  | openReq
  | flushReq
  | releaseReq
deriving DecidableEq, Repr

/-- Modelled from the spec: `fuse_filehandle_get` lives in `fuse_file.c`,
which is not under src/.  Per §4.2 it sends `OPEN` (or `OPENDIR`) to the
daemon and on success installs the handle with `open_count = 1`; on error the
slot remains invalid.  Returns (new count, requests issued, errno). -/
def fuse_filehandle_get (count : Nat) (openErr : Option Int) :
    Nat × List FhMsg × Int :=
  match openErr with
  | none => (1, [FhMsg.openReq], 0)
  | some e => (count, [FhMsg.openReq], e)

/-- Modelled from the spec: `fuse_filehandle_put` lives in `fuse_file.c`,
which is not under src/.  Per §4.2 it sends `RELEASE`/`RELEASEDIR` for the
slot's id and invalidates the slot. -/
def fuse_filehandle_put (_count : Nat) : Nat × List FhMsg :=
  (0, [FhMsg.releaseReq])

/-- The slot-count behaviour of `fuse_vnop_open` (lines 1739..1757): a valid
slot is reused with `FUFH_USE_INC`; an invalid slot goes through
`fuse_filehandle_get`. -/
def fuse_vnop_open_count (count : Nat) (openErr : Option Int) :
    Nat × List FhMsg × Int :=
  if count > 0 then (count + 1, [], 0)
  else fuse_filehandle_get count openErr

/-- The slot-count behaviour of `fuse_vnop_close` (lines 257..319): an
invalid slot logs and returns; otherwise optionally `FUSE_FLUSH` is sent
(when the daemon implements it), then `FUFH_USE_DEC`, and
`fuse_filehandle_put` exactly when the count reaches zero. -/
def fuse_vnop_close_count (count : Nat) (flushImpl : Bool) :
    Nat × List FhMsg :=
  if count = 0 then (0, [])
  else
    let flushMsgs := if flushImpl then [FhMsg.flushReq] else []
    let c := count - 1
    if c = 0 then
      let p := fuse_filehandle_put c
      (p.1, flushMsgs ++ p.2)
    else (c, flushMsgs)

/-- `k` successive opens of one access class (successful daemon replies),
accumulating the requests issued. -/
def openN (k : Nat) (count : Nat) : Nat × List FhMsg :=
  match k with
  | 0 => (count, [])
  | k + 1 =>
    let p := fuse_vnop_open_count count none
    let q := openN k p.1
    (q.1, p.2.1 ++ q.2)

/-- `k` successive closes of the same access class. -/
def closeN (k : Nat) (count : Nat) (flushImpl : Bool) : Nat × List FhMsg :=
  match k with
  | 0 => (count, [])
  | k + 1 =>
    let p := fuse_vnop_close_count count flushImpl
    let q := closeN k p.1 flushImpl
    (q.1, p.2 ++ q.2)

/-! ## C6: `fuse_vnop_mmap` (fuse_vnops.c lines 1519..1614) and
`fuse_filehandle_xlate_from_mmap` (fuse_file.h lines 37..53) -/

/-- `PROT_READ` (`sys/mman.h`). -/
def PROT_READ : Nat := 1

/-- `PROT_WRITE` (`sys/mman.h`). -/
def PROT_WRITE : Nat := 2

/-- `PROT_EXEC` (`sys/mman.h`). -/
def PROT_EXEC : Nat := 4

/-- `fuse_filehandle_xlate_from_mmap` (fuse_file.h lines 37..53): class from
protection bits; `none` models the `panic` on flags with no access bits. -/
def fuse_filehandle_xlate_from_mmap (fflags : Nat) : Option FufhType :=
  if fflags &&& PROT_WRITE ≠ 0 then
    if fflags &&& (PROT_READ ||| PROT_EXEC) ≠ 0 then some FufhType.rdwr
    else some FufhType.wronly
  else if fflags &&& (PROT_READ ||| PROT_EXEC) ≠ 0 then some FufhType.rdonly
  else none

/-- Outcome of `fuse_vnop_mmap`: errno together with the slot class whose
use count was taken (reused or freshly opened), or the `panic` inside
`fuse_filehandle_xlate_from_mmap`. -/
inductive MmapOut where
  | ret (e : Int) (acquired : Option FufhType)
  | panic
deriving DecidableEq, Repr

/-- Inputs of `fuse_vnop_mmap`. -/
structure MmapArgs where
  /-- `fuse_isdeadfs(vp)` -/
  dead : Bool
  /-- `fuse_isdirectio(vp)` -/
  isdirectio : Bool
  /-- `CHECK_BLANKET_DENIAL(vp, context, ENOENT)` fires -/
  blanketDenial : Bool
  /-- `ap->a_fflags` (protection bits) -/
  fflags : Nat
  /-- `FUFH_IS_VALID` per slot -/
  slotValid : FufhType → Bool
  /-- `fuse_filehandle_preflight_status` result per class (0 = proceed) -/
  preflightErr : FufhType → Int
  /-- `fuse_filehandle_get` result per class (0 = success) -/
  getErr : FufhType → Int

/-- One pass of the body after the `retry:` label (lines 1567..1589):
preflight (skipped once `deleted` is set; `ENOENT` from preflight sets
`deleted` and is forgiven) followed by `fuse_filehandle_get`.  Returns the
updated `deleted` flag and the errno. -/
def mmap_attempt (a : MmapArgs) (t : FufhType) (deleted : Bool) : Bool × Int :=
  let pe := if !deleted then a.preflightErr t else 0
  let p : Bool × Int := if pe = ENOENT then (true, 0) else (deleted, pe)
  if p.2 = 0 then (p.1, a.getErr t) else p

/-- `fuse_vnop_mmap`, transcribed from lines 1519..1614 with the protection
test exactly as written in the source:
`if (fflags & (PROT_READ | PROT_WRITE | PROT_EXEC)) { return 0; }` — the
early return fires whenever any access bit is set, and only flags with no
access bits reach `fuse_filehandle_xlate_from_mmap` (which panics on them).
The `EACCES` retry (lines 1597..1603) switches once to `FUFH_RDONLY`. -/
def fuse_vnop_mmap (a : MmapArgs) : MmapOut :=
  if a.dead then .ret ENXIO none
  else if a.isdirectio then .ret EPERM none
  else if a.blanketDenial then .ret ENOENT none
  else if a.fflags &&& (PROT_READ ||| PROT_WRITE ||| PROT_EXEC) ≠ 0 then
    .ret 0 none
  else
    match fuse_filehandle_xlate_from_mmap a.fflags with
    | none => .panic
    | some t0 =>
      if a.slotValid t0 then .ret 0 (some t0)
      else
        let r1 := mmap_attempt a t0 false
        if r1.2 = 0 then .ret 0 (some t0)
        else if r1.2 = EACCES ∧ (t0 = FufhType.rdwr ∨ t0 = FufhType.wronly) then
          if a.slotValid FufhType.rdonly then .ret 0 (some FufhType.rdonly)
          else
            let r2 := mmap_attempt a FufhType.rdonly r1.1
            if r2.2 = 0 then .ret 0 (some FufhType.rdonly)
            else .ret EPERM none
        else .ret EPERM none

/-! ## C4: dead-session early returns across all vnode operations
(`fuse_vnops.c`, the `fuse_isdeadfs` preambles of every entry point defined
in the file) -/

/-- The 37 vnode entry points defined in `fuse_vnops.c` (stubs `nop_allocate`,
`nop_revoke`, `vn_default_error` from the dispatch table are host-provided
and not in this file). -/
inductive VnopId where
  | access
  | blktooff
  | blockmap
  | close
  | create
  | exchange
  | fsync
  | getattr
  | getxattr
  | inactive
  | ioctl
  | link
  | listxattr
  | lookup
  | mkdir
  | mknod
  | mmap
  | mnomap
  | offtoblk
  | open
  | pagein
  | pageout
  | pathconf
  | read
  | readdir
  | readlink
  | reclaim
  | remove
  | removexattr
  | rename
  | rmdir
  | select
  | setattr
  | setxattr
  | strategy
  | symlink
  | write
deriving DecidableEq, Repr, Fintype

/-- Arguments that influence an operation's return value on a dead
session. -/
structure DeadArgs where
  /-- `vnode_isvroot(vp)` -/
  isRoot : Bool
  /-- `vnode_ischr(vp)` (read) -/
  ischr : Bool
  /-- exchange: `vnode_mount(fvp) == vnode_mount(tvp)` -/
  exSameMount : Bool
  /-- exchange: `fuse_implemented(data, FSESS_NOIMPLBIT(EXCHANGE))` -/
  exCapExchange : Bool
  /-- exchange: `fuse_isnovncache(fvp)` -/
  exNovncache : Bool
  /-- exchange: `fvp == tvp` -/
  exSameVnode : Bool
  /-- exchange: `vnode_isreg(fvp) && vnode_isreg(tvp)` -/
  exBothReg : Bool
deriving DecidableEq, Repr

/-- The value each vnode operation of `fuse_vnops.c` returns when invoked
with `fuse_isdeadfs` true, transcribed from each function's preamble:
`access` 80..86, `blktooff` 126..128, `blockmap` 170..172, `close` 242..244,
`create` 359..361, `exchange` 508..531 (the dead test sits after the
cross-mount/capability/vncache/same-vnode/regular-file tests), `fsync`
620..622, `getattr` 695..701 (root goes to the `fake:` label and returns 0),
`getxattr` 850..852, `inactive` 929..956 (no dead test; always returns 0),
`ioctl` 3278..3280, `link` 987..989, `listxattr` 1052..1054, `lookup`
1145..1147, `mkdir` 1448..1450, `mknod` 1492..1494, `mmap` 1536..1538,
`mnomap` 1631..1633 (returns 0), `offtoblk` 1696..1698, `open` 1729..1731,
`pagein` 1848..1857 (returns `ENOTSUP`), `pageout` 1908..1917 (returns
`ENOTSUP`), `pathconf` 1953..1955, `read` 2038..2040 (character vnodes
return 0), `readdir` 2169..2171, `readlink` 2247..2249, `reclaim` 2303..2305
(goes to `out:` and returns 0), `remove` 2397..2399, `removexattr`
2457..2459, `rename` 2533..2535, `rmdir` 2603..2605, `select` 2634..2641 (no
dead test; always returns 1), `setattr` 2691..2693, `setxattr` 2810..2812,
`strategy` 2938..2942 (errors the buf, returns `ENXIO`), `symlink`
2975..2977, `write` 3054..3056. -/
def vnopDeadReturn (op : VnopId) (a : DeadArgs) : Int :=
  match op with
  | .access => if a.isRoot then 0 else ENXIO
  | .blktooff => ENXIO
  | .blockmap => ENXIO
  | .close => 0
  | .create => ENXIO
  | .exchange =>
    if !a.exSameMount then EXDEV
    else if !a.exCapExchange then ENOTSUP
    else if a.exNovncache then ENOTSUP
    else if a.exSameVnode then EINVAL
    else if !a.exBothReg then EINVAL
    else ENXIO
  | .fsync => 0
  | .getattr => if a.isRoot then 0 else ENXIO
  | .getxattr => ENXIO
  | .inactive => 0
  | .ioctl => ENXIO
  | .link => ENXIO
  | .listxattr => ENXIO
  | .lookup => ENXIO
  | .mkdir => ENXIO
  | .mknod => ENXIO
  | .mmap => ENXIO
  | .mnomap => 0
  | .offtoblk => ENXIO
  | .open => ENXIO
  | .pagein => ENOTSUP
  | .pageout => ENOTSUP
  | .pathconf => ENXIO
  | .read => if a.ischr then 0 else ENXIO
  | .readdir => ENXIO
  | .readlink => ENXIO
  | .reclaim => 0
  | .remove => ENXIO
  | .removexattr => ENXIO
  | .rename => ENXIO
  | .rmdir => ENXIO
  | .select => 1
  | .setattr => ENXIO
  | .setxattr => ENXIO
  | .strategy => ENXIO
  | .symlink => ENXIO
  | .write => ENXIO

/-- C4 as stated by the claim: on a dead session every operation returns
`ENXIO`, with exactly these exceptions: `close`, `inactive`, `reclaim`,
`fsync` return 0, and `access` on the root vnode returns 0. -/
def c4Claimed : Prop :=
  ∀ (op : VnopId) (a : DeadArgs),
    vnopDeadReturn op a =
      if op = VnopId.close ∨ op = VnopId.inactive ∨ op = VnopId.reclaim ∨
          op = VnopId.fsync then 0
      else if op = VnopId.access ∧ a.isRoot = true then 0
      else ENXIO

/-- C4 amended: the full dead-session exception table of `fuse_vnops.c`. -/
def c4AmendedTable (op : VnopId) (a : DeadArgs) : Int :=
  if op = VnopId.close ∨ op = VnopId.inactive ∨ op = VnopId.reclaim ∨
      op = VnopId.fsync ∨ op = VnopId.mnomap then 0
  else if op = VnopId.select then 1
  else if (op = VnopId.access ∨ op = VnopId.getattr) ∧ a.isRoot = true then 0
  else if op = VnopId.read ∧ a.ischr = true then 0
  else if op = VnopId.pagein ∨ op = VnopId.pageout then ENOTSUP
  else if op = VnopId.exchange then
    if a.exSameMount = false then EXDEV
    else if a.exCapExchange = false then ENOTSUP
    else if a.exNovncache = true then ENOTSUP
    else if a.exSameVnode = true then EINVAL
    else if a.exBothReg = false then EINVAL
    else ENXIO
  else ENXIO

/-! ## C3: monotonicity of the capability map
(`fuse_clear_implemented` call sites in `fuse_vnops.c`: close 304, create
397, exchange 562, getxattr 899, listxattr 1080, removexattr 2497, setxattr
2900, ioctl 3322; `fuse_implemented` is read-only) -/

/-- The capability bits (`FSESS_NOIMPLBIT`) touched by `fuse_vnops.c`. -/
inductive CapBit where
  | create
  | flush
  | exchange
  | getxattr
  | listxattr
  | setxattr
  | removexattr
  | ioctl
  | fsync
  | fsyncdir
deriving DecidableEq, Repr

/-- The per-session capability map: bit set ⇔ "daemon implements op". -/
abbrev CapMap := CapBit → Bool

/-- `fuse_clear_implemented(data, FSESS_NOIMPLBIT(op))`. -/
def fuse_clear_implemented (cm : CapMap) (b : CapBit) : CapMap :=
  fun x => if x = b then false else cm x

/-- Run-dependent facts determining whether a vnode operation reaches its
`ENOSYS` handling. -/
structure CapInputs where
  /-- the preamble passed (live fs, no blanket denial, name filters ok) and
  the request was dispatched -/
  pass : Bool
  /-- `data->dataflags & FSESS_AUTO_XATTR` -/
  autoXattr : Bool
  /-- `fuse_dispatcher_wait_answer` returned `ENOSYS` -/
  enosys : Bool
  /-- `vap->va_type == VREG` (create) -/
  vaTypeIsReg : Bool
  /-- `vnode_isdir(vp)` -/
  isdir : Bool
  /-- the slot consulted is valid (close, ioctl) -/
  fufhValid : Bool

/-- The effect of each vnode operation of `fuse_vnops.c` on the capability
map, from the `fuse_clear_implemented` call sites: `close` clears FLUSH
(line 304, after dispatching `FUSE_FLUSH`, which needs a valid non-directory
handle and the FLUSH bit), `create` clears CREATE (line 397), `exchange`
clears EXCHANGE (line 562), the four xattr ops clear their own bits (lines
899, 1080, 2900, 2497, each behind the `FSESS_AUTO_XATTR` and capability
gates), `ioctl` clears IOCTL (line 3322, behind the capability and
valid-handle gates), and `fsync` — whose `ENOSYS` handling lives in
`fuse_internal_fsync`, not under src/, modelled from spec §4.1 — clears
FSYNC/FSYNCDIR.  Every other operation leaves the map unchanged. -/
def vnopCapEffect (op : VnopId) (i : CapInputs) (cm : CapMap) : CapMap :=
  match op with
  | .close =>
    if i.pass && i.fufhValid && !i.isdir && cm CapBit.flush && i.enosys then
      fuse_clear_implemented cm CapBit.flush
    else cm
  | .create =>
    if i.pass && cm CapBit.create && i.vaTypeIsReg && i.enosys then
      fuse_clear_implemented cm CapBit.create
    else cm
  | .exchange =>
    if i.pass && cm CapBit.exchange && i.enosys then
      fuse_clear_implemented cm CapBit.exchange
    else cm
  | .fsync =>
    if i.pass && cm (if i.isdir then CapBit.fsyncdir else CapBit.fsync) && i.enosys then
      fuse_clear_implemented cm (if i.isdir then CapBit.fsyncdir else CapBit.fsync)
    else cm
  | .getxattr =>
    if i.pass && !i.autoXattr && cm CapBit.getxattr && i.enosys then
      fuse_clear_implemented cm CapBit.getxattr
    else cm
  | .listxattr =>
    if i.pass && !i.autoXattr && cm CapBit.listxattr && i.enosys then
      fuse_clear_implemented cm CapBit.listxattr
    else cm
  | .setxattr =>
    if i.pass && !i.autoXattr && cm CapBit.setxattr && i.enosys then
      fuse_clear_implemented cm CapBit.setxattr
    else cm
  | .removexattr =>
    if i.pass && !i.autoXattr && cm CapBit.removexattr && i.enosys then
      fuse_clear_implemented cm CapBit.removexattr
    else cm
  | .ioctl =>
    if i.pass && cm CapBit.ioctl && i.fufhValid && i.enosys then
      fuse_clear_implemented cm CapBit.ioctl
    else cm
  | _ => cm

/-- Folding a whole trace of vnode operations over the capability map. -/
def runCapTrace (l : List (VnopId × CapInputs)) (cm : CapMap) : CapMap :=
  l.foldl (fun c p => vnopCapEffect p.1 p.2 c) cm

end Fuse4x

namespace Fuse4x

/-- C9: a component name of length exactly 255 passes the length
check (lookup proceeds past the preamble towards dispatch), while any longer
name is rejected with `ENAMETOOLONG` before any request is built, provided the
earlier preamble checks (dead fs, Apple-double skip, non-directory parent,
read-only mount on a modifying last component) do not fire first. -/
theorem lookup_name_length_check (a : LookupArgs)
    (hdead : a.dead = false) (had : a.appleDouble = false)
    (hdir : a.dvpIsDir = true)
    (hro : ¬(a.islastcn = true ∧ a.rdonlyMount = true ∧ a.nameiop ≠ NameiOp.lookup)) :
    (a.namelen > 255 → fuse_vnop_lookup_pre a = LookupPre.ret ENAMETOOLONG) ∧
    (a.namelen = 255 → fuse_vnop_lookup_pre a = LookupPre.proceed) := by
  unfold fuse_vnop_lookup_pre
  rw [hdead, had, hdir]
  simp only [Bool.false_eq_true, if_false, Bool.not_true, Bool.true_and]
  have hro' : (a.islastcn && a.rdonlyMount && !(a.nameiop = NameiOp.lookup)) = false := by
    rcases h1 : a.islastcn <;> rcases h2 : a.rdonlyMount <;>
      rcases h3 : decide (a.nameiop = NameiOp.lookup) <;> simp_all
  rw [hro']
  constructor
  · intro h
    have hgt : a.namelen > FUSE_MAXNAMLEN := h
    simp only [FUSE_MAXNAMLEN] at hgt ⊢
    simp [hgt]
  · intro h
    have hle : ¬(a.namelen > FUSE_MAXNAMLEN) := by
      rw [h]; simp [FUSE_MAXNAMLEN]
    simp only [FUSE_MAXNAMLEN] at hle ⊢
    simp [hle]

/-- Witness for C9 at concrete inputs: name length 256 is rejected with
`ENAMETOOLONG` and name length 255 proceeds. -/
theorem lookup_name_length_check_witness :
    fuse_vnop_lookup_pre ⟨false, false, true, true, false, NameiOp.lookup, 256⟩ =
      LookupPre.ret ENAMETOOLONG ∧
    fuse_vnop_lookup_pre ⟨false, false, true, true, false, NameiOp.lookup, 255⟩ =
      LookupPre.proceed := by
  refine ⟨?_, ?_⟩
  · exact (lookup_name_length_check ⟨false, false, true, true, false, NameiOp.lookup, 256⟩
      rfl rfl rfl (by simp)).1 (by decide)
  · exact (lookup_name_length_check ⟨false, false, true, true, false, NameiOp.lookup, 255⟩
      rfl rfl rfl (by simp)).2 rfl

/-- C10: on a live filesystem with no blanket denial, `fuse_vnop_rmdir`
returns `EINVAL` when the target vnode's node data equals the parent
directory's node data (removing a directory via itself), before purging the
name cache and before dispatching `FUSE_RMDIR`. -/
theorem rmdir_self_einval (a : RmdirArgs)
    (hdead : a.dead = false) (hbd : a.blanketDenial = false)
    (hsame : a.sameNodeData = true) :
    fuse_vnop_rmdir a = ⟨EINVAL, false, false, false⟩ := by
  unfold fuse_vnop_rmdir
  rw [hdead, hbd, hsame]
  simp

/-- Witness for C10 at a concrete input. -/
theorem rmdir_self_einval_witness :
    fuse_vnop_rmdir ⟨false, false, true, 0⟩ = ⟨EINVAL, false, false, false⟩ :=
  rmdir_self_einval ⟨false, false, true, 0⟩ rfl rfl rfl

/-- Any `u_long` ORed with `IOC_IN` is nonzero (bit 31 of `IOC_IN` is set). -/
theorem lor_IOC_IN_ne_zero (x : Nat) : x ||| IOC_IN ≠ 0 := by
  intro h
  have hbit : (x ||| IOC_IN).testBit 31 = false := by rw [h]; simp
  rw [Nat.testBit_lor] at hbit
  have hin : IOC_IN.testBit 31 = true := by decide
  simp [hin] at hbit

/-- Any `u_long` ORed with `IOC_OUT` is nonzero (bit 30 of `IOC_OUT` is set). -/
theorem lor_IOC_OUT_ne_zero (x : Nat) : x ||| IOC_OUT ≠ 0 := by
  intro h
  have hbit : (x ||| IOC_OUT).testBit 30 = false := by rw [h]; simp
  rw [Nat.testBit_lor] at hbit
  have hout : IOC_OUT.testBit 30 = true := by decide
  simp [hout] at hbit

/-- C7: the direction tests in `fuse_vnop_ioctl` use bitwise OR against
`IOC_IN`/`IOC_OUT`, so they are constant-true for every command value: once
the preamble passes (live fs, no blanket denial, IOCTL capability present,
valid file handle slot), the operation always copies `IOCPARM_LEN(command)`
input bytes into the request, always sets `out_size`, and on a successful
reply always copies the output buffer back, regardless of the command's
direction bits. -/
theorem ioctl_or_direction_constant_true (a : IoctlArgs)
    (hdead : a.dead = false) (hbd : a.blanketDenial = false)
    (hcap : a.capIoctl = true) (hfufh : a.fufhValid = true) :
    (a.command ||| IOC_IN ≠ 0) ∧ (a.command ||| IOC_OUT ≠ 0) ∧
    (fuse_vnop_ioctl a).inSizeCopied = some (IOCPARM_LEN a.command) ∧
    (fuse_vnop_ioctl a).outSizeSet = some (IOCPARM_LEN a.command) ∧
    (a.waitErr = 0 → (fuse_vnop_ioctl a).copiedOut = true) := by
  have hin := lor_IOC_IN_ne_zero a.command
  have hout := lor_IOC_OUT_ne_zero a.command
  refine ⟨hin, hout, ?_, ?_, ?_⟩ <;>
    · unfold fuse_vnop_ioctl
      rw [hdead, hbd, hcap, hfufh]
      split_ifs <;> simp_all

/-- Witness for C7 at a concrete input: a command with no direction bits at
all (command 0, so `IOC_VOID`-like) still has its input copied, `out_size`
set, and output copied back on success. -/
theorem ioctl_or_direction_constant_true_witness :
    (fuse_vnop_ioctl ⟨false, false, true, true, 0, 0⟩).inSizeCopied = some (IOCPARM_LEN 0) ∧
    (fuse_vnop_ioctl ⟨false, false, true, true, 0, 0⟩).copiedOut = true := by
  have h := ioctl_or_direction_constant_true ⟨false, false, true, true, 0, 0⟩ rfl rfl rfl rfl
  exact ⟨h.2.2.1, h.2.2.2.2 rfl⟩

/-- C8: `fuse_vnop_getattr` fabricates an attribute reply — returning 0 with
type taken from the vnode, uid/gid from the daemon credentials and mode
`S_IRWXU` — whenever the vnode is the root and the session is dead, or the
session is uninitialized (with a stale cache), or the `FUSE_GETATTR` dispatch
fails with `ENOTCONN`; for non-root vnodes the `ENOTCONN` error is returned
to the caller instead. -/
theorem getattr_root_enotconn_fabricates (a : GetattrArgs) :
    (a.dead = true ∧ a.isRoot = true →
      fuse_vnop_getattr a = GetattrOut.fake a.vnodeType a.daemonUid a.daemonGid S_IRWXU) ∧
    (a.dead = false ∧ ((!a.isRoot || !a.issuser) && a.blanketDenial) = false ∧
      a.cacheFresh = false ∧ a.inited = false ∧ a.isRoot = true →
      fuse_vnop_getattr a = GetattrOut.fake a.vnodeType a.daemonUid a.daemonGid S_IRWXU) ∧
    (a.dead = false ∧ ((!a.isRoot || !a.issuser) && a.blanketDenial) = false ∧
      a.cacheFresh = false ∧ a.inited = true ∧ a.dispatchReply = Except.error ENOTCONN ∧
      a.isRoot = true →
      fuse_vnop_getattr a = GetattrOut.fake a.vnodeType a.daemonUid a.daemonGid S_IRWXU) ∧
    (a.dead = false ∧ ((!a.isRoot || !a.issuser) && a.blanketDenial) = false ∧
      a.cacheFresh = false ∧ a.inited = true ∧ a.dispatchReply = Except.error ENOTCONN ∧
      a.isRoot = false →
      fuse_vnop_getattr a = GetattrOut.err ENOTCONN false false) ∧
    (a.dead = false ∧ ((!a.isRoot || !a.issuser) && a.blanketDenial) = false ∧
      a.cacheFresh = false ∧ a.inited = false ∧ a.isRoot = false →
      fuse_vnop_getattr a = GetattrOut.err ENOTCONN false true) := by
  refine ⟨?_, ?_, ?_, ?_, ?_⟩
  · rintro ⟨h1, h2⟩
    simp [fuse_vnop_getattr, getattrFake, h1, h2]
  · rintro ⟨h1, h2, h3, h4, h5⟩
    rcases hB : a.blanketDenial <;> rcases hS : a.issuser <;>
      simp_all [fuse_vnop_getattr, getattrFake]
  · rintro ⟨h1, h2, h3, h4, h5, h6⟩
    rcases hB : a.blanketDenial <;> rcases hS : a.issuser <;>
      simp_all [fuse_vnop_getattr, getattrFake, ENOTCONN, ENOENT]
  · rintro ⟨h1, h2, h3, h4, h5, h6⟩
    rcases hB : a.blanketDenial <;> rcases hS : a.issuser <;>
      simp_all [fuse_vnop_getattr, getattrFake, ENOTCONN, ENOENT]
  · rintro ⟨h1, h2, h3, h4, h5⟩
    rcases hB : a.blanketDenial <;> rcases hS : a.issuser <;>
      simp_all [fuse_vnop_getattr, getattrFake, ENOTCONN]

/-- Every trace produced by the direct-I/O read loop issues each request with
`size = min(remaining resid, iosize)`, copies `min(request, reply)` bytes per
step, and only its final step may carry a short reply. -/
theorem readDirectLoop_sizes (iosize : Nat) (replies : Nat → Except Int Nat) :
    ∀ (fuel i resid : Nat),
      reqSizesOK iosize resid (readDirectLoop iosize replies i resid fuel).1 = true ∧
      noEarlyShort (readDirectLoop iosize replies i resid fuel).1 = true := by
  intro fuel
  induction fuel with
  | zero =>
    intro i resid
    simp [readDirectLoop, reqSizesOK, noEarlyShort]
  | succ fuel ih =>
    intro i resid
    unfold readDirectLoop
    by_cases h0 : resid = 0
    · simp [h0, reqSizesOK, noEarlyShort]
    · simp only [h0, if_false]
      cases hrep : replies i with
      | error e => simp [reqSizesOK, noEarlyShort]
      | ok rep =>
        simp only
        by_cases hshort : rep < min resid iosize
        · simp [hshort, reqSizesOK, noEarlyShort]
        · simp only [hshort, if_false]
          have hle : min resid iosize ≤ rep := Nat.le_of_not_lt hshort
          have hmin : min (min resid iosize) rep = min resid iosize := min_eq_left hle
          rw [hmin]
          refine ⟨?_, ?_⟩
          · have hrest := (ih (i + 1) (resid - min resid iosize)).1
            simp [reqSizesOK, hrest, hmin]
          · have hrest := (ih (i + 1) (resid - min resid iosize)).2
            rcases hres : (readDirectLoop iosize replies (i + 1)
                (resid - min resid iosize) fuel).1 with _ | ⟨b, t⟩
            · simp [hres, noEarlyShort]
            · rw [hres] at hrest
              simp [hres, noEarlyShort, hle, hrest]

/-- C1: on a live direct-I/O vnode with positive resid and non-negative
offset, `fuse_vnop_read` uses the valid `RDONLY` slot or, failing that, the
`RDWR` slot, and returns `EIO` when neither is valid; the loop issues
`FUSE_READ` requests sized `min(remaining resid, session iosize)`, copying
`min(request, reply)` bytes per round trip, and a reply shorter than the
request terminates the loop after its bytes are copied.  Concretely, a
9000-byte read with `iosize = 4096` issues requests sized 4096, 4096, 808
delivering 9000 bytes, and a 500-byte short reply on the second request ends
the loop with 4596 bytes delivered. -/
theorem read_directio_chunking (a : ReadArgs)
    (hdead : a.dead = false) (hreg : a.isreg = true)
    (hres : 0 < a.resid) (hoff : 0 ≤ a.offset)
    (hdio : a.isdirectio = true) :
    (a.rdonlyValid = true →
      fuse_vnop_read a = ReadOut.direct FufhType.rdonly
        (readDirectLoop a.iosize a.replies 0 a.resid.toNat a.resid.toNat).1
        (readDirectLoop a.iosize a.replies 0 a.resid.toNat a.resid.toNat).2) ∧
    (a.rdonlyValid = false → a.rdwrValid = true →
      fuse_vnop_read a = ReadOut.direct FufhType.rdwr
        (readDirectLoop a.iosize a.replies 0 a.resid.toNat a.resid.toNat).1
        (readDirectLoop a.iosize a.replies 0 a.resid.toNat a.resid.toNat).2) ∧
    (a.rdonlyValid = false → a.rdwrValid = false →
      fuse_vnop_read a = ReadOut.ret EIO) ∧
    (∀ t steps e, fuse_vnop_read a = ReadOut.direct t steps e →
      reqSizesOK a.iosize a.resid.toNat steps = true ∧
      noEarlyShort steps = true) ∧
    (fuse_vnop_read (readArgsEx readRepliesFull) =
      ReadOut.direct FufhType.rdonly
        [⟨4096, 4096, 4096⟩, ⟨4096, 4096, 4096⟩, ⟨808, 808, 808⟩] 0 ∧
      sumCopied [⟨4096, 4096, 4096⟩, ⟨4096, 4096, 4096⟩, ⟨808, 808, 808⟩] = 9000) ∧
    (fuse_vnop_read (readArgsEx readRepliesShort) =
      ReadOut.direct FufhType.rdonly
        [⟨4096, 4096, 4096⟩, ⟨4096, 500, 500⟩] 0 ∧
      sumCopied [⟨4096, 4096, 4096⟩, ⟨4096, 500, 500⟩] = 4596) := by
  have hr0 : ¬(a.resid = 0) := by omega
  have ho0 : ¬(a.offset < 0) := by omega
  have hmain : fuse_vnop_read a =
      match pickReadSlot a.rdonlyValid a.rdwrValid with
      | none => ReadOut.ret EIO
      | some t =>
        ReadOut.direct t
          (readDirectLoop a.iosize a.replies 0 a.resid.toNat a.resid.toNat).1
          (readDirectLoop a.iosize a.replies 0 a.resid.toNat a.resid.toNat).2 := by
    unfold fuse_vnop_read
    rw [hdead, hreg, hdio]
    simp [hr0, ho0]
  refine ⟨?_, ?_, ?_, ?_, ?_, ?_⟩
  · intro h1
    rw [hmain]
    simp [pickReadSlot, h1]
  · intro h1 h2
    rw [hmain]
    simp [pickReadSlot, h1, h2]
  · intro h1 h2
    rw [hmain]
    simp [pickReadSlot, h1, h2]
  · intro t steps e hEq
    rw [hmain] at hEq
    rcases hslot : pickReadSlot a.rdonlyValid a.rdwrValid with _ | t'
    · rw [hslot] at hEq
      simp at hEq
    · rw [hslot] at hEq
      simp only [ReadOut.direct.injEq] at hEq
      obtain ⟨-, hsteps, -⟩ := hEq
      rw [← hsteps]
      exact ⟨(readDirectLoop_sizes a.iosize a.replies a.resid.toNat 0 a.resid.toNat).1,
        (readDirectLoop_sizes a.iosize a.replies a.resid.toNat 0 a.resid.toNat).2⟩
  · exact ⟨by decide, by decide⟩
  · exact ⟨by decide, by decide⟩

/-- Witness for C1 at the concrete 9000-byte example arguments. -/
theorem read_directio_chunking_witness :
    fuse_vnop_read (readArgsEx readRepliesShort) =
      ReadOut.direct FufhType.rdonly
        [⟨4096, 4096, 4096⟩, ⟨4096, 500, 500⟩] 0 :=
  ((read_directio_chunking (readArgsEx readRepliesShort)
    rfl rfl (by decide) (by decide) rfl).2.2.2.2.2).1

/-- The `bringup:` section only extends the request list it is given. -/
theorem create_bringup_msgs_prefix (a : CreateArgs) (gone : Bool)
    (msgs : List CreateMsg) (cap : Bool) (feo : FuseEntryOut) :
    ∃ rest, (fuse_vnop_create_bringup a gone msgs cap feo).msgs = msgs ++ rest := by
  unfold fuse_vnop_create_bringup fuse_internal_checkentry
  by_cases hk : IFTOVT feo.mode = VType.reg
  · simp only [hk, if_true]
    cases hi : a.instantiateErr with
    | none => exact ⟨[], by simp⟩
    | some e =>
      cases gone
      · exact ⟨[CreateMsg.releaseReq feo.fh], by simp⟩
      · exact ⟨[CreateMsg.forgetReq feo.nodeid], by simp⟩
  · exact ⟨[], by simp [hk]⟩

/-- The `bringup:` section never changes the capability bit it is given. -/
theorem create_bringup_cap (a : CreateArgs) (gone : Bool)
    (msgs : List CreateMsg) (cap : Bool) (feo : FuseEntryOut) :
    (fuse_vnop_create_bringup a gone msgs cap feo).capCreateAfter = cap := by
  unfold fuse_vnop_create_bringup fuse_internal_checkentry
  by_cases hk : IFTOVT feo.mode = VType.reg
  · simp only [hk, if_true]
    cases hi : a.instantiateErr with
    | none => simp
    | some e => cases gone <;> simp
  · simp [hk]

/-- If the `bringup:` section returns 0, it purged the parent's negative
name-cache entries (errnos from vnode instantiation are nonzero). -/
theorem create_bringup_purges (a : CreateArgs) (gone : Bool)
    (msgs : List CreateMsg) (cap : Bool) (feo : FuseEntryOut)
    (hie : ∀ e, a.instantiateErr = some e → e ≠ 0) :
    (fuse_vnop_create_bringup a gone msgs cap feo).ret = 0 →
    (fuse_vnop_create_bringup a gone msgs cap feo).purgedNegatives = true := by
  unfold fuse_vnop_create_bringup fuse_internal_checkentry
  by_cases hk : IFTOVT feo.mode = VType.reg
  · simp only [hk, if_true]
    cases hi : a.instantiateErr with
    | none => simp
    | some e =>
      have he := hie e hi
      cases gone <;> simp [he]
  · simp [hk, EIO]

/-- The `good_old:` section issues `FUSE_MKNOD` right after the requests it
is given. -/
theorem create_goodOld_msgs_prefix (a : CreateArgs)
    (msgs : List CreateMsg) (cap : Bool) :
    ∃ rest, (fuse_vnop_create_goodOld a msgs cap).msgs =
      msgs ++ [CreateMsg.mknodReq] ++ rest := by
  unfold fuse_vnop_create_goodOld
  cases hm : a.mknodReply with
  | error e => exact ⟨[], by simp⟩
  | ok feo =>
    obtain ⟨rest, hrest⟩ :=
      create_bringup_msgs_prefix a true (msgs ++ [CreateMsg.mknodReq]) cap feo
    exact ⟨rest, by simp [hrest]⟩

/-- The `good_old:` section never changes the capability bit it is given. -/
theorem create_goodOld_cap (a : CreateArgs) (msgs : List CreateMsg) (cap : Bool) :
    (fuse_vnop_create_goodOld a msgs cap).capCreateAfter = cap := by
  unfold fuse_vnop_create_goodOld
  cases hm : a.mknodReply with
  | error e => simp
  | ok feo => exact create_bringup_cap a true (msgs ++ [CreateMsg.mknodReq]) cap feo

/-- If the `good_old:` section returns 0, it purged the parent's negative
name-cache entries. -/
theorem create_goodOld_purges (a : CreateArgs) (msgs : List CreateMsg) (cap : Bool)
    (hme : ∀ e, a.mknodReply = Except.error e → e ≠ 0)
    (hie : ∀ e, a.instantiateErr = some e → e ≠ 0) :
    (fuse_vnop_create_goodOld a msgs cap).ret = 0 →
    (fuse_vnop_create_goodOld a msgs cap).purgedNegatives = true := by
  unfold fuse_vnop_create_goodOld
  cases hm : a.mknodReply with
  | error e =>
    have := hme e hm
    simp [this]
  | ok feo => exact create_bringup_purges a true (msgs ++ [CreateMsg.mknodReq]) cap feo hie

/-- C2: `fuse_vnop_create` issues `FUSE_CREATE` first when the CREATE
capability is set and the target is a regular file; an `ENOSYS` reply clears
the capability and falls through to `FUSE_MKNOD`; a returned entry that is
not a regular file yields an error with no vnode; if vnode instantiation
fails after a successful daemon reply, a compensating `FUSE_RELEASE` is sent
on the CREATE path and a `FUSE_FORGET` on the MKNOD path before the error is
surfaced; and on success the parent's negative name-cache entries are
purged. -/
theorem create_fallback_and_compensation (a : CreateArgs)
    (hdead : a.dead = false) (hbd : a.blanketDenial = false)
    (had : a.appleDouble = false)
    (hce : ∀ e, a.createReply = Except.error e → e ≠ 0)
    (hme : ∀ e, a.mknodReply = Except.error e → e ≠ 0)
    (hie : ∀ e, a.instantiateErr = some e → e ≠ 0) :
    (a.capCreate = true → a.vaTypeIsReg = true →
      (fuse_vnop_create a).msgs.head? = some CreateMsg.createReq) ∧
    (a.capCreate = true → a.vaTypeIsReg = true →
      a.createReply = Except.error ENOSYS →
      (fuse_vnop_create a).capCreateAfter = false ∧
      (fuse_vnop_create a).msgs.take 2 = [CreateMsg.createReq, CreateMsg.mknodReq]) ∧
    (∀ feo, a.capCreate = true → a.vaTypeIsReg = true →
      a.createReply = Except.ok feo → IFTOVT feo.mode ≠ VType.reg →
      fuse_vnop_create a = ⟨ EIO, [CreateMsg.createReq], a.capCreate, false, false⟩) ∧
    (∀ feo, a.capCreate = false →
      a.mknodReply = Except.ok feo → IFTOVT feo.mode ≠ VType.reg →
      fuse_vnop_create a = ⟨ EIO, [CreateMsg.mknodReq], a.capCreate, false, false⟩) ∧
    (∀ feo e, a.capCreate = true → a.vaTypeIsReg = true →
      a.createReply = Except.ok feo → IFTOVT feo.mode = VType.reg →
      a.instantiateErr = some e →
      fuse_vnop_create a =
        ⟨e, [CreateMsg.createReq, CreateMsg.releaseReq feo.fh], a.capCreate,
          false, false⟩) ∧
    (∀ feo e, a.capCreate = false →
      a.mknodReply = Except.ok feo → IFTOVT feo.mode = VType.reg →
      a.instantiateErr = some e →
      fuse_vnop_create a =
        ⟨e, [CreateMsg.mknodReq, CreateMsg.forgetReq feo.nodeid], a.capCreate,
          false, false⟩) ∧
    ((fuse_vnop_create a).ret = 0 → (fuse_vnop_create a).purgedNegatives = true) := by
  have hpre : fuse_vnop_create a =
      (if !a.capCreate || !a.vaTypeIsReg then
        fuse_vnop_create_goodOld a [] a.capCreate
      else
        match a.createReply with
        | .error e =>
          if e = ENOSYS then fuse_vnop_create_goodOld a [CreateMsg.createReq] false
          else ⟨e, [CreateMsg.createReq], a.capCreate, false, false⟩
        | .ok feo =>
          fuse_vnop_create_bringup a false [CreateMsg.createReq] a.capCreate feo) := by
    unfold fuse_vnop_create
    rw [hdead, hbd, had]
    simp
  refine ⟨?_, ?_, ?_, ?_, ?_, ?_, ?_⟩
  · intro hc hv
    rw [hpre]
    simp only [hc, hv, Bool.not_true, Bool.or_self, Bool.false_eq_true, if_false]
    cases hcr : a.createReply with
    | error e =>
      by_cases he : e = ENOSYS
      · simp only [he, if_true]
        obtain ⟨rest, hrest⟩ :=
          create_goodOld_msgs_prefix a [CreateMsg.createReq] false
        simp [hrest]
      · simp [he]
    | ok feo =>
      obtain ⟨rest, hrest⟩ :=
        create_bringup_msgs_prefix a false [CreateMsg.createReq] true feo
      simp [hrest]
  · intro hc hv hcr
    rw [hpre]
    simp only [hc, hv, Bool.not_true, Bool.or_self, Bool.false_eq_true, if_false, hcr]
    constructor
    · simp [create_goodOld_cap]
    · obtain ⟨rest, hrest⟩ := create_goodOld_msgs_prefix a [CreateMsg.createReq] false
      simp [hrest]
  · intro feo hc hv hcr hnr
    rw [hpre]
    simp only [hc, hv, Bool.not_true, Bool.or_self, Bool.false_eq_true, if_false, hcr]
    simp [fuse_vnop_create_bringup, fuse_internal_checkentry, hnr]
  · intro feo hc hm hnr
    rw [hpre]
    simp only [hc, Bool.not_false, Bool.true_or, if_true]
    simp [fuse_vnop_create_goodOld, hm, fuse_vnop_create_bringup,
      fuse_internal_checkentry, hnr]
  · intro feo e hc hv hcr hr hi
    rw [hpre]
    simp only [hc, hv, Bool.not_true, Bool.or_self, Bool.false_eq_true, if_false, hcr]
    simp [fuse_vnop_create_bringup, fuse_internal_checkentry, hr, hi]
  · intro feo e hc hm hr hi
    rw [hpre]
    simp only [hc, Bool.not_false, Bool.true_or, if_true]
    simp [fuse_vnop_create_goodOld, hm, fuse_vnop_create_bringup,
      fuse_internal_checkentry, hr, hi]
  · rw [hpre]
    by_cases hgate : (!a.capCreate || !a.vaTypeIsReg) = true
    · simp only [hgate, if_true]
      exact create_goodOld_purges a [] a.capCreate hme hie
    · simp only [hgate, if_false]
      cases hcr : a.createReply with
      | error e =>
        by_cases he : e = ENOSYS
        · simp only [he, if_true]
          exact create_goodOld_purges a [CreateMsg.createReq] false hme hie
        · have hne := hce e hcr
          simp [he, hne]
      | ok feo =>
        exact create_bringup_purges a false [CreateMsg.createReq] a.capCreate feo hie

/-- Witness for C2 at a concrete input: a daemon without CREATE support
(`ENOSYS` on `FUSE_CREATE`) gets the capability cleared and a `FUSE_MKNOD`
issued. -/
theorem create_fallback_and_compensation_witness :
    (fuse_vnop_create
      ⟨false, false, false, true, true, Except.error ENOSYS,
        Except.ok ⟨7, 33188, 0⟩, none⟩).capCreateAfter = false ∧
    (fuse_vnop_create
      ⟨false, false, false, true, true, Except.error ENOSYS,
        Except.ok ⟨7, 33188, 0⟩, none⟩).msgs.take 2 =
      [CreateMsg.createReq, CreateMsg.mknodReq] :=
  (create_fallback_and_compensation
    ⟨false, false, false, true, true, Except.error ENOSYS,
      Except.ok ⟨7, 33188, 0⟩, none⟩
    rfl rfl rfl
    (by intro e he; injection he with h; rw [← h]; decide)
    (by intro e he; cases he)
    (by intro e he; cases he)).2.1 rfl rfl rfl

/-- Opening an already-valid slot only increments its count and issues no
requests, `k` times over. -/
theorem openN_valid_slot (k : Nat) :
    ∀ c, 0 < c → openN k c = (c + k, []) := by
  induction k with
  | zero =>
    intro c hc
    simp [openN]
  | succ k ih =>
    intro c hc
    have hgt : c > 0 := hc
    simp only [openN, fuse_vnop_open_count, hgt, if_pos]
    rw [ih (c + 1) (by omega)]
    simp
    omega

/-- `k ≥ 1` opens from an invalid slot issue exactly one `OPEN` and leave the
count at `k`. -/
theorem openN_from_zero (k : Nat) (hk : 1 ≤ k) :
    openN k 0 = (k, [FhMsg.openReq]) := by
  obtain ⟨n, rfl⟩ : ∃ n, k = n + 1 := ⟨k - 1, by omega⟩
  simp only [openN, fuse_vnop_open_count, gt_iff_lt, lt_irrefl, if_false,
    fuse_filehandle_get]
  rw [openN_valid_slot n 1 (by omega)]
  simp
  omega

/-- Closing a slot with count `c` exactly `c` times sends no `OPEN`, sends
exactly one `RELEASE` (on the close that reaches zero), and invalidates the
slot. -/
theorem closeN_drain (fl : Bool) :
    ∀ n, (closeN (n + 1) (n + 1) fl).1 = 0 ∧
      (closeN (n + 1) (n + 1) fl).2.count FhMsg.openReq = 0 ∧
      (closeN (n + 1) (n + 1) fl).2.count FhMsg.releaseReq = 1 := by
  intro n
  induction n with
  | zero =>
    cases fl <;> simp [closeN, fuse_vnop_close_count, fuse_filehandle_put]
  | succ n ih =>
    obtain ⟨ih1, ih2, ih3⟩ := ih
    have hstep : fuse_vnop_close_count (n + 2) fl =
        (n + 1, if fl then [FhMsg.flushReq] else []) := by
      simp [fuse_vnop_close_count]
    have hunf : closeN (n + 2) (n + 2) fl =
        ((closeN (n + 1) (n + 1) fl).1,
          (if fl then [FhMsg.flushReq] else []) ++ (closeN (n + 1) (n + 1) fl).2) := by
      conv_lhs => rw [closeN]
      rw [hstep]
    rw [hunf]
    refine ⟨ih1, ?_, ?_⟩ <;> cases fl <;> simp_all [List.count_append]

/-- C5: for every access class slot, starting invalid (`open_count = 0`), a
sequence of `k ≥ 1` opens followed by `k` closes issues exactly one `OPEN`
and exactly one `RELEASE` and leaves the slot invalid: the first open
installs the handle with `open_count = 1`, each further open only increments
the count, each close decrements it, and only the close that reaches zero
sends `RELEASE` via `fuse_filehandle_put`. -/
theorem open_close_once (k : Nat) (fl : Bool) (hk : 1 ≤ k) :
    fuse_vnop_open_count 0 none = (1, [FhMsg.openReq], 0) ∧
    (∀ c, 0 < c → fuse_vnop_open_count c none = (c + 1, [], 0)) ∧
    (∀ c, 1 < c → fuse_vnop_close_count c fl =
      (c - 1, if fl then [FhMsg.flushReq] else [])) ∧
    fuse_vnop_close_count 1 fl =
      (0, (if fl then [FhMsg.flushReq] else []) ++ [FhMsg.releaseReq]) ∧
    (openN k 0).1 = k ∧
    (closeN k (openN k 0).1 fl).1 = 0 ∧
    ((openN k 0).2 ++ (closeN k (openN k 0).1 fl).2).count FhMsg.openReq = 1 ∧
    ((openN k 0).2 ++ (closeN k (openN k 0).1 fl).2).count FhMsg.releaseReq = 1 := by
  obtain ⟨n, rfl⟩ : ∃ n, k = n + 1 := ⟨k - 1, by omega⟩
  have ho := openN_from_zero (n + 1) hk
  have hc := closeN_drain fl n
  refine ⟨?_, ?_, ?_, ?_, ?_, ?_, ?_, ?_⟩
  · simp [fuse_vnop_open_count, fuse_filehandle_get]
  · intro c hc0
    simp [fuse_vnop_open_count, hc0]
  · intro c hc1
    have h0 : ¬(c = 0) := by omega
    have h1 : ¬(c - 1 = 0) := by omega
    simp [fuse_vnop_close_count, h0, h1]
  · simp [fuse_vnop_close_count, fuse_filehandle_put]
  · rw [ho]
  · rw [ho]
    exact hc.1
  · rw [ho]
    simp [List.count_append, hc.2.1]
  · rw [ho]
    simp [List.count_append, hc.2.2]

/-- Witness for C5 at `k = 3`: three opens and three closes of one class
issue exactly one `OPEN` and one `RELEASE`. -/
theorem open_close_once_witness :
    ((openN 3 0).2 ++ (closeN 3 (openN 3 0).1 true).2).count FhMsg.openReq = 1 ∧
    ((openN 3 0).2 ++ (closeN 3 (openN 3 0).1 true).2).count FhMsg.releaseReq = 1 ∧
    (closeN 3 (openN 3 0).1 true).1 = 0 := by
  have h := open_close_once 3 true (by decide)
  exact ⟨h.2.2.2.2.2.2.1, h.2.2.2.2.2.2.2, h.2.2.2.2.2.1⟩

/-- C6: the protection test of `fuse_vnop_mmap` is inverted.  As written,
`if (fflags & (PROT_READ | PROT_WRITE | PROT_EXEC)) return 0;` makes every
mmap that requests any access — including `PROT_READ`, where the claim
expects an `RDONLY` handle acquisition, and `PROT_WRITE`, where it expects
`WRONLY` — return 0 immediately without acquiring any file handle, while a
mapping with no access bits falls through to
`fuse_filehandle_xlate_from_mmap` and hits its panic.  The source's own
comment ("nothing to do") documents the intent of the negated test. -/
theorem mmap_guard_inverted :
    fuse_vnop_mmap
      ⟨false, false, false, PROT_READ, fun _ => false, fun _ => 0, fun _ => 0⟩ =
      MmapOut.ret 0 none ∧
    fuse_vnop_mmap
      ⟨false, false, false, PROT_WRITE, fun _ => false, fun _ => 0, fun _ => 0⟩ =
      MmapOut.ret 0 none ∧
    fuse_vnop_mmap
      ⟨false, false, false, 0, fun _ => false, fun _ => 0, fun _ => 0⟩ =
      MmapOut.panic := by
  decide

/-- C4 counterexample: `fuse_vnop_mnomap` on a dead session returns 0, yet
`mnomap` is not among the claim's exceptions (`close`, `inactive`,
`reclaim`, `fsync`, `access`-on-root), so the claim as stated is false. -/
theorem dead_returns_claim_false :
    vnopDeadReturn VnopId.mnomap ⟨false, false, true, true, false, false, true⟩ = 0 ∧
    (0 : Int) ≠ ENXIO ∧
    ¬ c4Claimed := by
  refine ⟨rfl, by decide, ?_⟩
  intro h
  have hmno := h VnopId.mnomap ⟨false, false, true, true, false, false, true⟩
  revert hmno
  decide

/-- C4 amended: on a dead session every vnode operation returns `ENXIO`
without dispatching, except: `close`, `inactive`, `reclaim`, `fsync` and
`mnomap` return 0; `select` returns 1; `access` and `getattr` on the root
vnode return 0 (`getattr` fabricating attributes); `read` on a character
vnode returns 0; `pagein` and `pageout` return `ENOTSUP`; and `exchange`
returns the verdict of its pre-dead checks (`EXDEV`, `ENOTSUP`, `EINVAL`)
when one of them fires before its dead-session test. -/
theorem dead_returns_amended :
    ∀ (op : VnopId) (a : DeadArgs), vnopDeadReturn op a = c4AmendedTable op a := by
  intro op a
  cases op <;> simp [vnopDeadReturn, c4AmendedTable]

/-- Clearing one capability bit never raises any bit. -/
theorem clear_implemented_le (cm : CapMap) (bit b : CapBit) :
    fuse_clear_implemented cm bit b = true → cm b = true := by
  unfold fuse_clear_implemented
  by_cases h : b = bit <;> simp [h]

/-- C3: capability bits are monotone — every vnode operation either leaves
the capability map unchanged or clears bits, never sets them; consequently a
bit once cleared stays cleared across any subsequent trace of vnode
operations for the life of the session. -/
theorem cap_bits_monotone :
    (∀ (op : VnopId) (i : CapInputs) (cm : CapMap) (b : CapBit),
      vnopCapEffect op i cm b = true → cm b = true) ∧
    (∀ (l : List (VnopId × CapInputs)) (cm : CapMap) (b : CapBit),
      cm b = false → runCapTrace l cm b = false) := by
  have h1 : ∀ (op : VnopId) (i : CapInputs) (cm : CapMap) (b : CapBit),
      vnopCapEffect op i cm b = true → cm b = true := by
    intro op i cm b
    cases op <;>
      first
        | exact fun h => h
        | (simp only [vnopCapEffect]
           split_ifs <;>
             first
               | exact clear_implemented_le cm _ b
               | exact fun h => h)
  refine ⟨h1, ?_⟩
  intro l
  induction l with
  | nil =>
    intro cm b hb
    simpa [runCapTrace] using hb
  | cons p l ih =>
    intro cm b hb
    have hstep : vnopCapEffect p.1 p.2 cm b = false := by
      cases heff : vnopCapEffect p.1 p.2 cm b
      · rfl
      · exact absurd (h1 p.1 p.2 cm b heff) (by simp [hb])
    have hfold : runCapTrace (p :: l) cm = runCapTrace l (vnopCapEffect p.1 p.2 cm) := by
      simp [runCapTrace]
    rw [hfold]
    exact ih _ b hstep

/-- Witness for C3: a map with the CREATE bit already cleared keeps it
cleared across a concrete trace of operations that includes an
`ENOSYS`-clearing getxattr. -/
theorem cap_bits_monotone_witness :
    runCapTrace
      [(VnopId.getxattr, ⟨true, false, true, true, false, true⟩),
       (VnopId.create, ⟨true, false, true, true, false, true⟩)]
      (fun b => !(decide (b = CapBit.create))) CapBit.create = false :=
  cap_bits_monotone.2
    [(VnopId.getxattr, ⟨true, false, true, true, false, true⟩),
     (VnopId.create, ⟨true, false, true, true, false, true⟩)]
    (fun b => !(decide (b = CapBit.create))) CapBit.create (by decide)

/-- Witness for C8 at concrete inputs: an `ENOTCONN` dispatch failure on the
root vnode yields the fabricated reply, and on a non-root vnode the error is
propagated. -/
theorem getattr_root_enotconn_fabricates_witness :
    fuse_vnop_getattr
      ⟨false, true, true, false, false, true, Except.error ENOTCONN, VType.dir, 501, 20⟩ =
      GetattrOut.fake VType.dir 501 20 S_IRWXU ∧
    fuse_vnop_getattr
      ⟨false, false, true, false, false, true, Except.error ENOTCONN, VType.reg, 501, 20⟩ =
      GetattrOut.err ENOTCONN false false := by
  constructor
  · exact (getattr_root_enotconn_fabricates
      ⟨false, true, true, false, false, true, Except.error ENOTCONN, VType.dir, 501, 20⟩).2.2.1
      ⟨rfl, rfl, rfl, rfl, rfl, rfl⟩
  · exact (getattr_root_enotconn_fabricates
      ⟨false, false, true, false, false, true, Except.error ENOTCONN, VType.reg, 501, 20⟩).2.2.2.1
      ⟨rfl, by rfl, rfl, rfl, rfl, rfl⟩

end Fuse4x
